import Mathlib

/-!
Verification of the granary daemon core against its specification.

The development shallowly embeds the daemon's connection handler and request
dispatcher (`src/bin/granaryd.rs`), the runner process supervisor
(`src/services/runner.rs`) and the environment-variable expansion of the
global configuration model (`src/models/global_config.rs`).  External
collaborators (the worker manager, the filesystem, the OS process API) are
abstracted as oracles: records of `Except`-valued functions whose outcomes
the embedded code matches on, exactly as the Rust code matches on `Result`s.
-/

namespace Granary

/-- Modelled from the spec: the error taxonomy of the missing `error.rs`
module.  The dispatcher only uses the human-readable rendering (`to_string`);
the runner constructs `Io` (with the OS error kind and a message) and
`Conflict` values, as visible at its call sites in `src/services/runner.rs`. -/
inductive GranaryError where
  | io (kind : Nat) (msg : String)
  | conflict (msg : String)
  | other (msg : String)
deriving DecidableEq

/-- Modelled from the spec: the human-readable message of a `GranaryError`
(the `Display` implementation lives in the missing `error.rs`). -/
def GranaryError.render : GranaryError → String
  | .io _ m => m
  | .conflict m => m
  | .other m => m

/-- Worker record: only its identity matters to the dispatcher, which passes
it through opaquely into response payloads. -/
structure Worker where
  id : String
deriving DecidableEq

/-- Run record as handled by the dispatcher and the runner.  The fields are
the ones `spawn_runner` reads: the id (log file name), the command, and the
decoded argument vector (`run.args_vec()`). -/
structure Run where
  id : String
  command : String
  argsVec : List String
deriving DecidableEq

/-- Modelled from the spec: log-retrieval target kind (worker or run),
carried by the `GetLogs` operation (protocol module not under src/). -/
inductive LogTarget where
  | worker
  | run
deriving DecidableEq

/-- Modelled from the spec: a page of log lines plus pagination information,
as returned by the worker manager's `get_logs`. -/
structure LogsPage where
  lines : List String
  lastLine : Nat
deriving DecidableEq

/-- Modelled from the spec: the `StartWorker` request body (protocol module
not under src/); the fields are those copied into `CreateWorker` by the
dispatcher in `src/bin/granaryd.rs`. -/
structure StartWorkerRequest where
  runner_name : Option String
  command : Option String
  args : List String
  event_type : String
  filters : Option String
  concurrency : Option Nat
  instance_path : Option String
  attach : Bool
deriving DecidableEq

/-- Modelled from the spec: the worker-creation record handed to the worker
manager (models/worker.rs not under src/); field-for-field image of the
struct literal built by the dispatcher. -/
structure CreateWorker where
  runner_name : Option String
  command : Option String
  args : List String
  event_type : String
  filters : Option String
  concurrency : Option Nat
  instance_path : Option String
  detached : Bool
deriving DecidableEq

/-- The `CreateWorker` literal built in the `StartWorker` arm of
`dispatch_request`: all fields copied, `detached := !req.attach`. -/
def toCreateWorker (req : StartWorkerRequest) : CreateWorker :=
  { runner_name := req.runner_name
    command := req.command
    args := req.args
    event_type := req.event_type
    filters := req.filters
    concurrency := req.concurrency
    instance_path := req.instance_path
    detached := !req.attach }

/-- Modelled from the spec: the `GetLogs` request body (protocol module not
under src/): target id and kind, starting line offset, maximum line count. -/
structure GetLogsRequest where
  target_id : String
  target_type : LogTarget
  since_line : Nat
  limit : Nat
deriving DecidableEq

/-- The closed set of operations matched by `dispatch_request` in
`src/bin/granaryd.rs` (protocol enum not under src/; variants and their
fields are read off the dispatcher's match arms). -/
inductive Operation where
  | ping
  | shutdown
  | startWorker (req : StartWorkerRequest)
  | stopWorker (worker_id : String) (stop_runs : Bool)
  | getWorker (worker_id : String)
  | listWorkers (all : Bool)
  | pruneWorkers
  | workerLogs (worker_id : String) (follow : Bool) (lines : Nat)
  | getRun (run_id : String)
  | listRuns (worker_id : Option String) (status : Option String) (all : Bool)
  | stopRun (run_id : String)
  | pauseRun (run_id : String)
  | resumeRun (run_id : String)
  | runLogs (run_id : String) (follow : Bool) (lines : Nat)
  | getLogsOp (req : GetLogsRequest)
deriving DecidableEq

/-- Modelled from the spec: the Request envelope — a caller-chosen numeric
correlation id plus one operation variant. -/
structure Request where
  id : Nat
  op : Operation
deriving DecidableEq

/-- Success payloads produced by the dispatcher (one constructor per shape of
value passed to `Response::ok`). -/
inductive Payload where
  | info (version : String) (status : String)
  | text (s : String)
  | worker (w : Worker)
  | workers (ws : List Worker)
  | run (r : Run)
  | runs (rs : List Run)
  | logs (content : String) (message : Option String)
  | logsPage (p : LogsPage)
  | empty
deriving DecidableEq

/-- Either a success payload or an error message. -/
inductive RespBody where
  | ok (p : Payload)
  | err (msg : String)
deriving DecidableEq

/-- Modelled from the spec: the Response envelope — the same correlation id
plus either a success payload or an error message. -/
structure Response where
  id : Nat
  body : RespBody
deriving DecidableEq

/-- `Response::ok` -/
def Response.okResp (id : Nat) (p : Payload) : Response := ⟨id, .ok p⟩

/-- `Response::err` -/
def Response.errResp (id : Nat) (msg : String) : Response := ⟨id, .err msg⟩

/-- The worker manager as seen by the dispatcher: an oracle record giving the
`Result` outcome of each operation the dispatcher delegates (the manager's
own implementation is an external collaborator of the embedded code). -/
structure Manager where
  start_worker : CreateWorker → Except GranaryError Worker
  stop_worker : String → Bool → Except GranaryError Unit
  get_worker : String → Except GranaryError (Option Worker)
  list_workers : Bool → Except GranaryError (List Worker)
  get_worker_log_path : String → Except GranaryError String
  get_run : String → Except GranaryError (Option Run)
  list_runs : Option String → Option String → Bool → Except GranaryError (List Run)
  stop_run : String → Except GranaryError Unit
  pause_run : String → Except GranaryError Unit
  resume_run : String → Except GranaryError Unit
  get_run_log_path : String → Except GranaryError (Option String)
  get_logs : String → LogTarget → Nat → Nat → Except GranaryError LogsPage

/-- The filesystem as seen by the dispatcher: path existence and the outcome
of reading a log file as a list of lines. -/
structure Fs where
  pathExists : String → Bool
  readLines : String → Except String (List String)

/-- Shallow embedding of `read_log_tail` (src/bin/granaryd.rs lines 332-346):
collect all lines of the file, keep the last `lines` of them, join with
newline.  Opening and reading the file is abstracted as the `Except`-valued
line list. -/
def read_log_tail (readLines : Except String (List String)) (lines : Nat) :
    Except String String :=
  match readLines with
  | .error e => .error e
  | .ok allLines =>
      let start := if allLines.length > lines then allLines.length - lines else 0
      .ok (String.intercalate "\n" (allLines.drop start))

/-- The compile-time `CARGO_PKG_VERSION` constant reported by `Ping`. -/
def cargoPkgVersion : String := "0.1.0"

/-- Shallow embedding of `dispatch_request` (src/bin/granaryd.rs lines
149-329): returns the response and the should-shutdown flag.  Every match
arm mirrors the corresponding Rust arm, with manager and filesystem results
supplied by the oracles. -/
def dispatch_request (m : Manager) (fs : Fs) (request : Request) :
    Response × Bool :=
  let id := request.id
  match request.op with
  | .ping => (Response.okResp id (.info cargoPkgVersion "running"), false)
  | .shutdown => (Response.okResp id (.text "shutdown_ack"), true)
  | .startWorker req =>
      match m.start_worker (toCreateWorker req) with
      | .ok worker => (Response.okResp id (.worker worker), false)
      | .error e => (Response.errResp id e.render, false)
  | .stopWorker worker_id stop_runs =>
      match m.stop_worker worker_id stop_runs with
      | .ok _ => (Response.okResp id .empty, false)
      | .error e => (Response.errResp id e.render, false)
  | .getWorker worker_id =>
      match m.get_worker worker_id with
      | .ok (some worker) => (Response.okResp id (.worker worker), false)
      | .ok none =>
          (Response.errResp id ("Worker " ++ worker_id ++ " not found"), false)
      | .error e => (Response.errResp id e.render, false)
  | .listWorkers all =>
      match m.list_workers all with
      | .ok workers => (Response.okResp id (.workers workers), false)
      | .error e => (Response.errResp id e.render, false)
  | .pruneWorkers => (Response.errResp id "Operation not yet implemented", false)
  | .workerLogs worker_id _follow lines =>
      match m.get_worker_log_path worker_id with
      | .ok path =>
          if fs.pathExists path then
            match read_log_tail (fs.readLines path) lines with
            | .ok logs => (Response.okResp id (.logs logs none), false)
            | .error e =>
                (Response.errResp id ("Failed to read logs: " ++ e), false)
          else
            (Response.okResp id (.logs "" (some "No log file found")), false)
      | .error e => (Response.errResp id e.render, false)
  | .getRun run_id =>
      match m.get_run run_id with
      | .ok (some run) => (Response.okResp id (.run run), false)
      | .ok none => (Response.errResp id ("Run " ++ run_id ++ " not found"), false)
      | .error e => (Response.errResp id e.render, false)
  | .listRuns worker_id status all =>
      match m.list_runs worker_id status all with
      | .ok runs => (Response.okResp id (.runs runs), false)
      | .error e => (Response.errResp id e.render, false)
  | .stopRun run_id =>
      match m.stop_run run_id with
      | .ok _ => (Response.okResp id .empty, false)
      | .error e => (Response.errResp id e.render, false)
  | .pauseRun run_id =>
      match m.pause_run run_id with
      | .ok _ => (Response.okResp id .empty, false)
      | .error e => (Response.errResp id e.render, false)
  | .resumeRun run_id =>
      match m.resume_run run_id with
      | .ok _ => (Response.okResp id .empty, false)
      | .error e => (Response.errResp id e.render, false)
  | .runLogs run_id _follow lines =>
      match m.get_run_log_path run_id with
      | .ok (some path) =>
          match read_log_tail (fs.readLines path) lines with
          | .ok logs => (Response.okResp id (.logs logs none), false)
          | .error e =>
              (Response.errResp id ("Failed to read logs: " ++ e), false)
      | .ok none =>
          (Response.okResp id (.logs "" (some "No log file found")), false)
      | .error e => (Response.errResp id e.render, false)
  | .getLogsOp req =>
      match m.get_logs req.target_id req.target_type req.since_line req.limit with
      | .ok page => (Response.okResp id (.logsPage page), false)
      | .error e => (Response.errResp id e.render, false)

/-- Events observable on one client connection, in the order the handler
performs them. -/
inductive ConnEvent where
  | recv (r : Request)
  | send (resp : Response)
  | setShutdownFlag
deriving DecidableEq

/-- Shallow embedding of `handle_connection` (src/bin/granaryd.rs lines
123-144): the bytes the client will send are abstracted as the list of
requests it delivers; `recv_request` on the exhausted list models the
connection closing (the loop breaks).  The result is the ordered trace of
receive, send and flag-store events the handler performs. -/
def handle_connection (m : Manager) (fs : Fs) : List Request → List ConnEvent
  | [] => []
  | r :: rest =>
      let rb := dispatch_request m fs r
      .recv r :: .send rb.1 ::
        (if rb.2 then [.setShutdownFlag] else handle_connection m fs rest)

/-- The requests the handler actually reads before the loop exits: everything
up to and including the first request whose dispatch requests shutdown. -/
def servedRequests (m : Manager) (fs : Fs) : List Request → List Request
  | [] => []
  | r :: rest =>
      r :: (if (dispatch_request m fs r).2 then [] else servedRequests m fs rest)

/-- Dispatch requests shutdown only for the `Shutdown` operation, and then
the response is the acknowledgment carrying the request's id. -/
theorem dispatch_shutdown_iff (m : Manager) (fs : Fs) (r : Request) :
    (dispatch_request m fs r).2 = true →
      r.op = Operation.shutdown ∧
      (dispatch_request m fs r).1 =
        Response.okResp r.id (.text "shutdown_ack") := by
  cases hop : r.op <;>
    simp only [dispatch_request, hop] <;>
    (repeat' split) <;>
    simp_all

/-- C1: on one connection each received Request produces exactly one
Response, responses are sent in arrival order, and the handler only reads
the next Request after the previous Response has been sent: the trace is
exactly the in-order interleaving recv/send pair per served request,
followed by the flag store when a shutdown was served. -/
theorem one_response_per_request_in_order
    (m : Manager) (fs : Fs) (reqs : List Request) :
    handle_connection m fs reqs =
      ((servedRequests m fs reqs).map
          (fun r => [ConnEvent.recv r,
                     ConnEvent.send (dispatch_request m fs r).1])).flatten
        ++ (if (servedRequests m fs reqs).any
                (fun r => (dispatch_request m fs r).2)
            then [ConnEvent.setShutdownFlag] else []) := by
  induction reqs with
  | nil => simp [handle_connection, servedRequests]
  | cons r rest ih =>
      by_cases h : (dispatch_request m fs r).2
      · simp [handle_connection, servedRequests, h]
      · simp only [handle_connection, servedRequests, h, if_neg,
          Bool.false_eq_true, List.map_cons, List.flatten, List.any_cons,
          Bool.false_or, List.cons_append, List.append_assoc]
        simp [ih, h]

/-- C2: whenever the handler stores the shutdown flag, the trace ends with
the receipt of a `Shutdown` request, then the success acknowledgment
carrying that request's correlation id, then the flag store: the client
observes the acknowledgment before the daemon's shutdown sequence begins. -/
theorem shutdown_ack_sent_before_flag
    (m : Manager) (fs : Fs) (reqs : List Request)
    (h : ConnEvent.setShutdownFlag ∈ handle_connection m fs reqs) :
    ∃ t r, r.op = Operation.shutdown ∧
      handle_connection m fs reqs =
        t ++ [ConnEvent.recv r,
              ConnEvent.send (Response.okResp r.id (.text "shutdown_ack")),
              ConnEvent.setShutdownFlag] := by
  induction reqs with
  | nil => simp [handle_connection] at h
  | cons r rest ih =>
      by_cases hsd : (dispatch_request m fs r).2
      · obtain ⟨hop, hresp⟩ := dispatch_shutdown_iff m fs r hsd
        refine ⟨[], r, hop, ?_⟩
        simp [handle_connection, hsd, hresp]
      · simp only [handle_connection, hsd, if_neg, Bool.false_eq_true,
          List.mem_cons] at h
        rcases h with h | h | h
        · exact absurd h (by simp)
        · exact absurd h (by simp)
        · obtain ⟨t, r', hop, htr⟩ := ih h
          exact ⟨ConnEvent.recv r ::
                   ConnEvent.send (dispatch_request m fs r).1 :: t, r', hop,
                 by simp [handle_connection, hsd, htr]⟩

/-- A fixed manager oracle whose mutating `stop_worker` operation fails; used
to witness the error-propagation theorems at a concrete input. -/
def failingManager : Manager where
  start_worker := fun _ => .ok ⟨"w1"⟩
  stop_worker := fun _ _ => .error (.other "store unavailable")
  get_worker := fun _ => .ok none
  list_workers := fun _ => .ok []
  get_worker_log_path := fun w => .ok ("/logs/" ++ w ++ ".log")
  get_run := fun _ => .ok none
  list_runs := fun _ _ _ => .ok []
  stop_run := fun _ => .ok ()
  pause_run := fun _ => .ok ()
  resume_run := fun _ => .ok ()
  get_run_log_path := fun _ => .ok none
  get_logs := fun _ _ _ _ => .ok ⟨[], 0⟩

/-- A fixed filesystem oracle with no files. -/
def emptyFs : Fs where
  pathExists := fun _ => false
  readLines := fun _ => .error "No such file"

/-- Witness for C2: on the single-request connection `[Shutdown]` the flag is
stored and the trace is the recv, the acknowledgment send, then the flag. -/
theorem shutdown_ack_sent_before_flag_witness :
    ∃ t r, r.op = Operation.shutdown ∧
      handle_connection failingManager emptyFs [⟨7, Operation.shutdown⟩] =
        t ++ [ConnEvent.recv r,
              ConnEvent.send (Response.okResp r.id (.text "shutdown_ack")),
              ConnEvent.setShutdownFlag] :=
  shutdown_ack_sent_before_flag failingManager emptyFs
    [⟨7, Operation.shutdown⟩] (by decide)

/-- The error outcome, if any, that the worker manager yields for the manager
call performed by an operation (the `Err(e)` arms of `dispatch_request`),
rendered as its human-readable message. -/
def managerError (m : Manager) : Operation → Option String
  | .ping => none
  | .shutdown => none
  | .pruneWorkers => none
  | .startWorker req =>
      match m.start_worker (toCreateWorker req) with
      | .error e => some e.render
      | .ok _ => none
  | .stopWorker worker_id stop_runs =>
      match m.stop_worker worker_id stop_runs with
      | .error e => some e.render
      | .ok _ => none
  | .getWorker worker_id =>
      match m.get_worker worker_id with
      | .error e => some e.render
      | .ok _ => none
  | .listWorkers all =>
      match m.list_workers all with
      | .error e => some e.render
      | .ok _ => none
  | .workerLogs worker_id _ _ =>
      match m.get_worker_log_path worker_id with
      | .error e => some e.render
      | .ok _ => none
  | .getRun run_id =>
      match m.get_run run_id with
      | .error e => some e.render
      | .ok _ => none
  | .listRuns worker_id status all =>
      match m.list_runs worker_id status all with
      | .error e => some e.render
      | .ok _ => none
  | .stopRun run_id =>
      match m.stop_run run_id with
      | .error e => some e.render
      | .ok _ => none
  | .pauseRun run_id =>
      match m.pause_run run_id with
      | .error e => some e.render
      | .ok _ => none
  | .resumeRun run_id =>
      match m.resume_run run_id with
      | .error e => some e.render
      | .ok _ => none
  | .runLogs run_id _ _ =>
      match m.get_run_log_path run_id with
      | .error e => some e.render
      | .ok _ => none
  | .getLogsOp req =>
      match m.get_logs req.target_id req.target_type req.since_line req.limit with
      | .error e => some e.render
      | .ok _ => none

/-- C3: for every operation, when the worker manager call errors, the
dispatcher converts it into a failure Response carrying the error's
human-readable message and the original correlation id, and does not request
daemon shutdown — the daemon never terminates on a client-triggered
operation error. -/
theorem manager_error_becomes_failure_response
    (m : Manager) (fs : Fs) (req : Request) (msg : String)
    (h : managerError m req.op = some msg) :
    dispatch_request m fs req = (Response.errResp req.id msg, false) := by
  cases hop : req.op <;>
    simp only [managerError, hop] at h <;>
    simp only [dispatch_request, hop] <;>
    first
      | simp_all
      | (split <;> simp_all)

/-- Witness for C3: the failing manager's `stop_worker` error surfaces as a
failure Response with its message and the request's id 42. -/
theorem manager_error_becomes_failure_response_witness :
    dispatch_request failingManager emptyFs ⟨42, Operation.stopWorker "w1" true⟩ =
      (Response.errResp 42 "store unavailable", false) :=
  manager_error_becomes_failure_response failingManager emptyFs
    ⟨42, Operation.stopWorker "w1" true⟩ "store unavailable" (by decide)

/-- C4: the Response returned by `dispatch_request` always carries the
Request's correlation id verbatim, in the success case and the failure
case alike. -/
theorem response_echoes_correlation_id
    (m : Manager) (fs : Fs) (req : Request) :
    ((dispatch_request m fs req).1).id = req.id := by
  cases hop : req.op <;>
    simp only [dispatch_request, hop] <;>
    first
      | rfl
      | (split <;> first
          | rfl
          | (split <;> first | rfl | (split <;> rfl)))

/-- `Result::is_ok` as a plain boolean on `Except`. -/
def isOkB : Except ε α → Bool
  | .ok _ => true
  | .error _ => false

/-- Whether the first list is a prefix of the second
(character-for-character). -/
def isPrefixList : List Char → List Char → Bool
  | [], _ => true
  | _ :: _, [] => false
  | p :: ps, c :: cs => p == c && isPrefixList ps cs

/-- Index of the first occurrence of `pat` in `s`, mirroring Rust's
`str::find` on a substring pattern (the empty pattern matches at 0). -/
def findSub (pat : List Char) : List Char → Option Nat
  | [] => if isPrefixList pat [] then some 0 else none
  | c :: rest =>
      if isPrefixList pat (c :: rest) then some 0
      else (findSub pat rest).map (fun i => i + 1)

/-- A message mentions a word when the word occurs in it as a contiguous
substring. -/
def mentions (needle s : String) : Prop :=
  (findSub needle.data s.data).isSome

instance (needle s : String) : Decidable (mentions needle s) := by
  unfold mentions
  infer_instance

/-- The fallible steps `main` performs during startup, in program order
(src/bin/granaryd.rs lines 32-60), abstracted as oracles.  Every step up to
and including the final `IpcListener::bind` uses `?` (fatal on failure)
except `restore_workers`, whose failure is only logged. -/
structure StartupEnv where
  daemon_dir : Except String String
  create_dir_all : Except String Unit
  daemon_log_path : Except String String
  daemon_pid_path : Except String String
  write_pid : Except String Unit
  global_pool : Except String Unit
  restore_workers : Except String Unit
  daemon_socket_path : Except String String
  bind : Except String Unit

/-- Outcome of the startup phase: the daemon reaches the serving state
(optionally having logged a worker-restoration warning), or exits non-zero
with an error. -/
inductive StartupOutcome where
  | serving (restoreWarning : Option String)
  | fatal (e : String)
deriving DecidableEq

/-- Shallow embedding of the startup phase of `main` (src/bin/granaryd.rs
lines 32-60): each `?`-propagated failure is fatal; a `restore_workers`
failure is captured as a warning and startup continues to bind the listener
and serve. -/
def mainStartup (env : StartupEnv) : StartupOutcome :=
  match env.daemon_dir with
  | .error e => .fatal e
  | .ok _ =>
  match env.create_dir_all with
  | .error e => .fatal e
  | .ok _ =>
  match env.daemon_log_path with
  | .error e => .fatal e
  | .ok _ =>
  match env.daemon_pid_path with
  | .error e => .fatal e
  | .ok _ =>
  match env.write_pid with
  | .error e => .fatal e
  | .ok _ =>
  match env.global_pool with
  | .error e => .fatal e
  | .ok _ =>
  let warning : Option String :=
    match env.restore_workers with
    | .error e => some e
    | .ok _ => none
  match env.daemon_socket_path with
  | .error e => .fatal e
  | .ok _ =>
  match env.bind with
  | .error e => .fatal e
  | .ok _ => .serving warning

/-- All fatal-on-failure startup steps succeeded (everything except
`restore_workers`). -/
def startupStepsOk (env : StartupEnv) : Bool :=
  isOkB env.daemon_dir && isOkB env.create_dir_all &&
  isOkB env.daemon_log_path && isOkB env.daemon_pid_path &&
  isOkB env.write_pid && isOkB env.global_pool &&
  isOkB env.daemon_socket_path && isOkB env.bind

/-- The logged warning: the `restore_workers` error, if any. -/
def restoreWarning (env : StartupEnv) : Option String :=
  match env.restore_workers with
  | .error e => some e
  | .ok _ => none

/-- C5: if every fatal-on-failure startup step succeeds, the daemon reaches
the serving state even when `restore_workers` fails (the failure is only
recorded as a warning); if any of those steps fails, startup is fatal and
the daemon exits non-zero. -/
theorem restore_failure_is_nonfatal_other_startup_failures_fatal
    (env : StartupEnv) :
    (startupStepsOk env = true →
      mainStartup env = .serving (restoreWarning env)) ∧
    (startupStepsOk env = false → ∃ e, mainStartup env = .fatal e) := by
  obtain ⟨d1, d2, d3, d4, d5, d6, d7, d8, d9⟩ := env
  cases d1 <;> cases d2 <;> cases d3 <;> cases d4 <;> cases d5 <;>
    cases d6 <;> cases d7 <;> cases d8 <;> cases d9 <;>
    exact ⟨fun h => by first | rfl | exact Bool.noConfusion h,
           fun h => by first | exact ⟨_, rfl⟩ | exact Bool.noConfusion h⟩

/-- A startup environment where only worker restoration fails. -/
def startupEnvRestoreFails : StartupEnv where
  daemon_dir := .ok "/home/u/.granary/daemon"
  create_dir_all := .ok ()
  daemon_log_path := .ok "/home/u/.granary/daemon/daemon.log"
  daemon_pid_path := .ok "/home/u/.granary/daemon/granaryd.pid"
  write_pid := .ok ()
  global_pool := .ok ()
  restore_workers := .error "db row corrupted"
  daemon_socket_path := .ok "/home/u/.granary/daemon/granaryd.sock"
  bind := .ok ()

/-- Witness for C5: with every fatal step succeeding and restoration
failing, the daemon still reaches the serving state carrying the warning. -/
theorem restore_failure_is_nonfatal_witness :
    mainStartup startupEnvRestoreFails =
      StartupOutcome.serving (some "db row corrupted") :=
  (restore_failure_is_nonfatal_other_startup_failures_fatal
    startupEnvRestoreFails).1 (by decide)

/-- The exit-result computation shared by `RunnerHandle::wait` and
`RunnerHandle::try_wait` (src/services/runner.rs lines 39-68).  The observed
OS exit status is `some c` for a process that exited with code `c` and
`none` for a process terminated by a signal (`status.code()` is `None`, so
`unwrap_or(-1)` yields `-1`); `status.success()` holds exactly for exit
status 0. -/
def waitOutcome (code : Option Int) : Int × Option String :=
  let exit_code := code.getD (-1)
  if code = some 0 then (exit_code, none)
  else (exit_code, some ("Process exited with code " ++ toString exit_code))

/-- C6 counterexample: waiting on a killed (signal-terminated) process
produces the message "Process exited with code -1", which does not mention
termination or killing and is literally the natural-failure wording
instantiated at exit code -1 — identical to what a process that could exit
with code -1 would report. -/
theorem killed_message_does_not_state_termination :
    waitOutcome none = (-1, some "Process exited with code -1") ∧
    ¬ mentions "terminat" "Process exited with code -1" ∧
    ¬ mentions "kill" "Process exited with code -1" ∧
    (waitOutcome none).2 = (waitOutcome (some (-1))).2 := by
  refine ⟨by decide, ?_, ?_, by decide⟩ <;> decide

/-- C6 amended: a killed run's wait result is exit code -1 with the
natural-failure wording "Process exited with code -1"; forced stops are
distinguishable from organic failures only through the sentinel exit code
-1 (organic exits report the OS-provided non-negative code), not through
the message wording. -/
theorem killed_run_wait_result :
    waitOutcome none = (-1, some "Process exited with code -1") ∧
    ∀ c : Int, 0 ≤ c → (waitOutcome (some c)).1 ≠ (waitOutcome none).1 := by
  refine ⟨by decide, ?_⟩
  intro c hc
  have h1 : (waitOutcome (some c)).1 = c := by
    simp only [waitOutcome, Option.getD_some]
    split <;> rfl
  have h2 : (waitOutcome none).1 = -1 := rfl
  rw [h1, h2]
  omega

/-- Witness for C6 amended: a natural exit with code 5 is distinguishable
from the killed run's sentinel. -/
theorem killed_run_wait_result_witness :
    (waitOutcome (some 5)).1 ≠ (waitOutcome none).1 :=
  killed_run_wait_result.2 5 (by norm_num)

/-- An OS `io::Error`: error kind plus message (its `Display` prints the
message). -/
structure IoError where
  kind : Nat
  msg : String
deriving DecidableEq

/-- The OS-level outcomes `spawn_runner` consumes, in program order
(src/services/runner.rs lines 97-128): log directory creation, log file
creation, descriptor clone for stderr, `Command::spawn`, and `child.id()`. -/
structure SpawnEnv where
  create_dir_all : Except IoError Unit
  create_log_file : Except IoError Unit
  try_clone : Except IoError Unit
  spawn : Except IoError Unit
  child_id : Option Nat

/-- The data exposed by the returned `RunnerHandle`: run id and pid. -/
structure SpawnedHandle where
  run_id : String
  pid : Nat
deriving DecidableEq

/-- Shallow embedding of `spawn_runner` (src/services/runner.rs lines
97-128).  Plain `?`-propagated io errors become `GranaryError.io`; a spawn
failure is wrapped with the attempted command and the underlying OS error
(kind preserved, message embedded); a missing pid becomes a conflict
error. -/
def spawn_runner (run : Run) (env : SpawnEnv) :
    Except GranaryError SpawnedHandle :=
  match env.create_dir_all with
  | .error e => .error (.io e.kind e.msg)
  | .ok _ =>
  match env.create_log_file with
  | .error e => .error (.io e.kind e.msg)
  | .ok _ =>
  match env.try_clone with
  | .error e => .error (.io e.kind e.msg)
  | .ok _ =>
  match env.spawn with
  | .error e =>
      .error (.io e.kind
        ("Failed to spawn runner \x27" ++ run.command ++ "\x27: " ++ e.msg))
  | .ok _ =>
  match env.child_id with
  | none => .error (.conflict "Failed to get PID of spawned process")
  | some pid => .ok ⟨run.id, pid⟩

/-- C7: when the OS fails to start the process (executable not found or any
other spawn failure), `spawn_runner` fails with the spawn-error shape: an io
error preserving the underlying OS error kind whose message names the
attempted command and embeds the underlying OS error message. -/
theorem spawn_failure_reports_command_and_os_error
    (run : Run) (env : SpawnEnv) (e : IoError)
    (h1 : isOkB env.create_dir_all = true)
    (h2 : isOkB env.create_log_file = true)
    (h3 : isOkB env.try_clone = true)
    (h : env.spawn = .error e) :
    spawn_runner run env =
      .error (.io e.kind
        ("Failed to spawn runner \x27" ++ run.command ++ "\x27: " ++ e.msg)) := by
  obtain ⟨d1, d2, d3, d4, d5⟩ := env
  cases d1 <;> cases d2 <;> cases d3 <;>
    simp_all [spawn_runner, isOkB]

/-- Witness for C7: a concrete missing executable. -/
theorem spawn_failure_reports_command_and_os_error_witness :
    spawn_runner ⟨"run-1", "nonexistent_command_12345", []⟩
      ⟨.ok (), .ok (), .ok (), .error ⟨2, "No such file or directory"⟩, none⟩ =
    .error (.io 2
      ("Failed to spawn runner \x27nonexistent_command_12345\x27: " ++
        "No such file or directory")) :=
  spawn_failure_reports_command_and_os_error
    ⟨"run-1", "nonexistent_command_12345", []⟩
    ⟨.ok (), .ok (), .ok (), .error ⟨2, "No such file or directory"⟩, none⟩
    ⟨2, "No such file or directory"⟩ (by decide) (by decide) (by decide) rfl

/-- Events of the post-serving-loop shutdown phase, in program order. -/
inductive ShutdownEvent where
  | callShutdownAll
  | removePidFile
  | exitCode (code : Nat)
deriving DecidableEq

/-- Shallow embedding of the code after `main`'s serving loop
(src/bin/granaryd.rs lines 108-117): await `manager.shutdown_all()`; on
success remove the PID file (best-effort) and return `Ok(())`, so the
process exits with status 0; on failure the `?` operator returns the error
from `main`, so the process exits with status 1 and the PID file is not
removed. -/
def mainShutdownPhase (shutdown_all : Except String Unit) :
    List ShutdownEvent :=
  match shutdown_all with
  | .ok _ => [.callShutdownAll, .removePidFile, .exitCode 0]
  | .error _ => [.callShutdownAll, .exitCode 1]

/-- C8 counterexample: when `shutdown_all()` fails, the daemon exits with
status 1 and never removes the PID file — not the claimed
remove-PID-then-exit-0 sequence. -/
theorem shutdown_phase_exit_zero_counterexample :
    mainShutdownPhase (.error "store unavailable") =
      [.callShutdownAll, .exitCode 1] ∧
    mainShutdownPhase (.error "store unavailable") ≠
      [.callShutdownAll, .removePidFile, .exitCode 0] := by
  decide

/-- C8 amended: after the serving loop ends the daemon first awaits
`shutdown_all()`; if it succeeds the daemon then removes the PID file and
exits with status 0; if it fails the daemon exits with status 1 without
removing the PID file. -/
theorem shutdown_phase_sequence (r : Except String Unit) :
    (isOkB r = true →
      mainShutdownPhase r =
        [.callShutdownAll, .removePidFile, .exitCode 0]) ∧
    (isOkB r = false →
      mainShutdownPhase r = [.callShutdownAll, .exitCode 1]) := by
  cases r <;> simp [mainShutdownPhase, isOkB]

/-- Witness for C8 amended: the successful path at a concrete input. -/
theorem shutdown_phase_sequence_witness :
    mainShutdownPhase (.ok ()) =
      [.callShutdownAll, .removePidFile, .exitCode 0] :=
  (shutdown_phase_sequence (.ok ())).1 (by decide)

/-- Modelled from the spec: the worker manager's log retrieval
`get_logs(target_id, target_type, since_line, limit)` "returns log lines at
or after `since_line`, bounded by `limit`" (worker_manager not under src/).
The log file's content is represented as the list of its lines. -/
def get_logs_lines (logLines : List String) (since_line : Nat)
    (limit : Nat) : List String :=
  (logLines.drop since_line).take limit

/-- C9: after writing N lines, retrieval with offset 0 and limit N returns
exactly those N lines in order, and retrieval with offset N returns an
empty result.  The daemon-side tail reader agrees: reading the last N lines
of the N-line file yields all of them in order. -/
theorem log_round_trip (logLines : List String) (k : Nat) :
    get_logs_lines logLines 0 logLines.length = logLines ∧
    get_logs_lines logLines logLines.length k = [] ∧
    read_log_tail (.ok logLines) logLines.length =
      .ok (String.intercalate "\n" logLines) := by
  refine ⟨?_, ?_, ?_⟩
  · simp [get_logs_lines]
  · simp [get_logs_lines]
  · simp [read_log_tail]

/-! ### Environment-variable expansion (`src/models/global_config.rs`) -/

/-- The dollar character of the `${VAR}` syntax. -/
def dollar : Char := '$'

/-- The opening brace of the `${VAR}` syntax. -/
def obrace : Char := '\x7b'

/-- The closing brace of the `${VAR}` syntax. -/
def cbrace : Char := '\x7d'

/-- One iteration of the `while` loop of `expand_env_vars`
(src/models/global_config.rs lines 61-81): find the first occurrence of the
two-character pattern dollar-open-brace; if there is none, or no closing
brace follows it, the loop ends (`none`); otherwise replace the variable
reference by the environment's value for the enclosed name (empty for an
unset variable, as `unwrap_or_default`) and continue with the new string
(`some result`).  The process environment is the total map `env`. -/
def expandStep (env : List Char → List Char) (s : List Char) :
    Option (List Char) :=
  match findSub [dollar, obrace] s with
  | none => none
  | some start =>
      match findSub [cbrace] (s.drop start) with
      | none => none
      | some e =>
          some (s.take start ++ env ((s.drop (start + 2)).take (e - 2)) ++
                s.drop (start + e + 1))

/-- Run the expansion loop for at most `fuel` iterations; `some r` exactly
when the loop exits within the fuel, with final string `r`. -/
def expandRun (env : List Char → List Char) :
    Nat → List Char → Option (List Char)
  | 0, _ => none
  | fuel + 1, s =>
      match expandStep env s with
      | none => some s
      | some t => expandRun env fuel t

/-- The `while` loop of `expand_env_vars` terminates on input `s` under
process environment `env`. -/
def expandTerminates (env : List Char → List Char) (s : List Char) : Prop :=
  ∃ fuel r, expandRun env fuel s = some r

/-- An environment in which the variable `X` is set to the literal string
dollar-brace-X-brace, i.e. its own reference. -/
def selfRefEnv : List Char → List Char := fun v =>
  if v = ['X'] then [dollar, obrace, 'X', cbrace] else []

/-- The input string consisting of the single reference to `X`. -/
def selfRefInput : List Char := [dollar, obrace, 'X', cbrace]

/-- One loop iteration on the self-referential input reproduces it. -/
theorem selfRef_step :
    expandStep selfRefEnv selfRefInput = some selfRefInput := by decide

/-- The loop never exits on the self-referential input. -/
theorem selfRef_run (fuel : Nat) :
    expandRun selfRefEnv fuel selfRefInput = none := by
  induction fuel with
  | zero => rfl
  | succ n ih => simpa only [expandRun, selfRef_step] using ih

/-- C10 counterexample: with the environment setting `X` to the literal
string dollar-brace-X-brace, `expand_env_vars` on that same string never
terminates — every iteration substitutes the value and obtains the original
string again, so the `while` loop runs forever. -/
theorem expand_env_vars_nonterminating :
    ¬ expandTerminates selfRefEnv selfRefInput := by
  rintro ⟨fuel, r, h⟩
  rw [selfRef_run fuel] at h
  exact Option.noConfusion h

/-- A found occurrence really is one: the pattern is a prefix of the suffix
at the returned index. -/
theorem findSub_isPrefix {pat : List Char} :
    ∀ {s : List Char} {i : Nat}, findSub pat s = some i →
      isPrefixList pat (s.drop i) = true := by
  intro s
  induction s with
  | nil =>
      intro i h
      unfold findSub at h
      split at h
      · cases h
        simpa using by assumption
      · cases h
  | cons c rest ih =>
      intro i h
      unfold findSub at h
      split at h
      · cases h
        simpa using by assumption
      · rw [Option.map_eq_some'] at h
        obtain ⟨j, hj, rfl⟩ := h
        simpa using ih hj

/-- A two-character prefix decomposes the list. -/
theorem isPrefixList_pair {a b : Char} :
    ∀ {l : List Char}, isPrefixList [a, b] l = true →
      l = a :: b :: l.drop 2 := by
  intro l
  match l with
  | [] => intro h; cases h
  | [x] => intro h; simp [isPrefixList] at h
  | x :: y :: t =>
      intro h
      simp only [isPrefixList, Bool.and_eq_true, beq_iff_eq] at h
      simp [h.1, h.2.1]

/-- A one-character prefix pins the head. -/
theorem isPrefixList_single {a : Char} :
    ∀ {l : List Char}, isPrefixList [a] l = true →
      ∃ t, l = a :: t := by
  intro l
  match l with
  | [] => intro h; cases h
  | x :: t =>
      intro h
      simp only [isPrefixList, Bool.and_eq_true, beq_iff_eq] at h
      exact ⟨t, by simp [h.1]⟩

/-- The closing brace found after a dollar-open-brace occurrence sits at
offset at least 2 (offsets 0 and 1 hold the dollar and the open brace). -/
theorem closing_brace_offset {s : List Char} {start e : Nat}
    (hd : findSub [dollar, obrace] s = some start)
    (he : findSub [cbrace] (s.drop start) = some e) : 2 ≤ e := by
  have hpre := isPrefixList_pair (findSub_isPrefix hd)
  have hclose := findSub_isPrefix he
  rcases Nat.lt_or_ge e 2 with hlt | hge
  · interval_cases e
    · rw [hpre] at hclose
      obtain ⟨t, ht⟩ := isPrefixList_single (by simpa using hclose)
      have : dollar = cbrace := by
        have := congrArg (fun l => l.head?) ht
        simpa using this
      exact absurd this (by decide)
    · rw [hpre] at hclose
      obtain ⟨t, ht⟩ := isPrefixList_single (by simpa using hclose)
      have : obrace = cbrace := by
        have := congrArg (fun l => l.head?) ht
        simpa using this
      exact absurd this (by decide)
  · exact hge

/-- Each replacement strictly decreases the number of dollar characters when
no environment value contains a dollar: the consumed reference loses its
dollar and the substituted value adds none. -/
theorem expandStep_count_lt {env : List Char → List Char}
    (henv : ∀ v, dollar ∉ env v) {s t : List Char}
    (h : expandStep env s = some t) :
    t.count dollar < s.count dollar := by
  unfold expandStep at h
  split at h
  · cases h
  case _ start hfind =>
  split at h
  · cases h
  case _ e hclose =>
  cases h
  have h2 : 2 ≤ e := closing_brace_offset hfind hclose
  have hpre := isPrefixList_pair (findSub_isPrefix hfind)
  have hzero : (env ((s.drop (start + 2)).take (e - 2))).count dollar = 0 :=
    List.count_eq_zero.mpr (henv _)
  have hdropdrop : s.drop (start + 2) = (s.drop start).drop 2 := by
    rw [List.drop_drop]
  have htail : s.drop (start + e + 1) = (s.drop (start + 2)).drop (e - 1) := by
    rw [List.drop_drop]
    congr 1
    omega
  have htailcount :
      (s.drop (start + e + 1)).count dollar ≤
        (s.drop (start + 2)).count dollar := by
    rw [htail]
    exact (List.drop_sublist _ _).count_le dollar
  have hdropcount :
      (s.drop start).count dollar =
        1 + (s.drop (start + 2)).count dollar := by
    rw [hpre, hdropdrop]
    simp [List.count_cons, dollar, obrace]
    omega
  calc (s.take start ++ env ((s.drop (start + 2)).take (e - 2)) ++
          s.drop (start + e + 1)).count dollar
      = (s.take start).count dollar +
          (env ((s.drop (start + 2)).take (e - 2))).count dollar +
          (s.drop (start + e + 1)).count dollar := by
        simp only [List.count_append]
    _ ≤ (s.take start).count dollar + (s.drop (start + 2)).count dollar := by
        omega
    _ < (s.take start).count dollar + (s.drop start).count dollar := by
        omega
    _ = s.count dollar := by
        rw [← List.count_append, List.take_append_drop]

/-- C10 amended: the `while` loop of `expand_env_vars` terminates for every
input string whenever no referenced variable's value contains a dollar
character (in particular whenever values contain no further variable
references); with a value that reintroduces its own reference the loop runs
forever, as the counterexample shows. -/
theorem expand_env_vars_terminates (env : List Char → List Char)
    (henv : ∀ v, dollar ∉ env v) (s : List Char) :
    expandTerminates env s := by
  suffices h : ∀ n t, t.count dollar ≤ n → expandTerminates env t by
    exact h (s.count dollar) s le_rfl
  intro n
  induction n with
  | zero =>
      intro t ht
      cases hstep : expandStep env t with
      | none => exact ⟨1, t, by simp [expandRun, hstep]⟩
      | some u =>
          have := expandStep_count_lt henv hstep
          omega
  | succ n ih =>
      intro t ht
      cases hstep : expandStep env t with
      | none => exact ⟨1, t, by simp [expandRun, hstep]⟩
      | some u =>
          have hlt := expandStep_count_lt henv hstep
          obtain ⟨fuel, r, hr⟩ := ih u (by omega)
          exact ⟨fuel + 1, r, by simpa [expandRun, hstep] using hr⟩

/-- Witness for C10 amended: under an environment whose every value is the
empty string, expansion of the single reference to `X` terminates. -/
theorem expand_env_vars_terminates_witness :
    expandTerminates (fun _ => []) selfRefInput :=
  expand_env_vars_terminates (fun _ => []) (fun v => by simp) selfRefInput

end Granary
